import Mathlib

/-!
Shallow embedding of the moderation bot core (DiscordBot/classifier.py,
DiscordBot/report.py, DiscordBot/bot.py) and proofs about it.

Conventions of the embedding:
- Python floats are modelled as exact rationals (Rat); Python ints as Nat/Int.
- Python dicts keyed by user id are modelled as functions Nat -> Option _.
- datetime timestamps are abstract integer instants passed explicitly.
- Python string operations (strip, lower, membership, isdigit) are modelled
  over the character list of the string, since they are character-wise.
- Prompt and menu texts that no property depends on are abbreviated, and
  apostrophes occurring inside source strings are dropped; control flow and
  all stored/compared fields are preserved exactly.
- The negative-index slice xs[-n:] of Python is modelled by pySliceLast,
  including the n = 0 corner case where Python returns the whole list.
-/

/-- Python xs[-n:] on a list: the last n elements, but the whole list when
n = 0 (since xs[-0:] is xs[0:]). -/
def pySliceLast (n : Nat) (l : List α) : List α :=
  if n = 0 then l else l.drop (l.length - n)

/-- Python s.strip(): drop whitespace from both ends. -/
def pyStrip (cs : List Char) : List Char :=
  ((cs.dropWhile Char.isWhitespace).reverse.dropWhile Char.isWhitespace).reverse

/-- Python s.lower(). -/
def pyLower (cs : List Char) : List Char := cs.map Char.toLower

/-- Python s.isdigit() (ASCII digits suffice here). -/
def pyIsDigit (cs : List Char) : Bool := !cs.isEmpty && cs.all Char.isDigit

/-- Numeric value of a digit string, Python int(s) for s.isdigit(). -/
def digitsVal (cs : List Char) : Nat := cs.foldl (fun a c => a * 10 + (c.toNat - 48)) 0

theorem pySliceLast_sublist (n : Nat) (l : List α) : (pySliceLast n l).Sublist l := by
  unfold pySliceLast
  split
  · exact List.Sublist.refl l
  · exact List.drop_sublist _ l

theorem drop_sublist_drop (l : List α) {i j : Nat} (h : j ≤ i) :
    (l.drop i).Sublist (l.drop j) := by
  have : l.drop i = (l.drop j).drop (i - j) := by
    rw [List.drop_drop]
    congr 1
    omega
  rw [this]
  exact List.drop_sublist _ _

theorem pySliceLast_sublist_of_le {m n : Nat} (l : List α) (hm : m ≠ 0) (h : m ≤ n) :
    (pySliceLast m l).Sublist (pySliceLast n l) := by
  unfold pySliceLast
  rcases Nat.eq_zero_or_pos n with hn | hn
  · omega
  · rw [if_neg hm, if_neg (by omega)]
    exact drop_sublist_drop l (by omega)

theorem pySliceLast_of_le {n : Nat} (l : List α) (h : l.length ≤ n) :
    pySliceLast n l = l := by
  unfold pySliceLast
  split
  · rfl
  · rw [Nat.sub_eq_zero_of_le h, List.drop_zero]

theorem length_pySliceLast_le (n : Nat) (l : List α) (hn : n ≠ 0) :
    (pySliceLast n l).length ≤ n := by
  unfold pySliceLast
  rw [if_neg hn, List.length_drop]
  omega

/-- Sum of a list of rationals, each at most 1, is at most the length. -/
theorem list_sum_le_length (l : List Rat) (h : ∀ x ∈ l, x ≤ 1) :
    l.sum ≤ (l.length : Rat) := by
  induction l with
  | nil => simp
  | cons a t ih =>
    simp only [List.sum_cons, List.length_cons]
    have ha : a ≤ 1 := h a (List.mem_cons_self a t)
    have ht : t.sum ≤ (t.length : Rat) := ih fun x hx => h x (List.mem_cons_of_mem a hx)
    push_cast
    linarith

theorem list_sum_nonneg (l : List Rat) (h : ∀ x ∈ l, 0 ≤ x) : 0 ≤ l.sum := by
  induction l with
  | nil => simp
  | cons a t ih =>
    simp only [List.sum_cons]
    have ha : 0 ≤ a := h a (List.mem_cons_self a t)
    have ht : 0 ≤ t.sum := ih fun x hx => h x (List.mem_cons_of_mem a hx)
    linarith

/-- External chat message, as read by the bot (relevant fields only). -/
structure Msg where
  id : Nat
  authorId : Nat
  authorName : String
  content : String
deriving DecidableEq, Repr

/-! ## Classifier adapter (classifier.py, GroomingClassifier) -/

/-- Raw output of the external torch model (`_get_raw_model_prediction`);
the model itself is opaque and passed in as a parameter. -/
structure RawPrediction where
  grooming_probability : Rat
  confidence : Rat
  predicted_class : Nat
  is_grooming : Bool
deriving DecidableEq, Repr

/-- Result dictionary of `GroomingClassifier.predict_grooming_probability`. -/
structure ClassificationResult where
  grooming_probability : Rat
  confidence : Rat
  predicted_class : Nat
  is_grooming : Bool
  filter_reason : String
deriving DecidableEq, Repr

/-- `predict_grooming_probability`: short-circuits on empty or short (after
strip) input, otherwise wraps the raw model output. The external model is the
`model` parameter. -/
def predict_grooming_probability (model : String → RawPrediction)
    (conversation_text : String) : ClassificationResult :=
  if conversation_text = "" ∨ (pyStrip conversation_text.data).length < 5 then
    { grooming_probability := 0
      confidence := 19/20
      predicted_class := 0
      is_grooming := false
      filter_reason := "Empty or too short conversation" }
  else
    let raw := model conversation_text
    { grooming_probability := raw.grooming_probability
      confidence := raw.confidence
      predicted_class := raw.predicted_class
      is_grooming := raw.is_grooming
      filter_reason := "Pure ML prediction - no filtering applied" }

/-! ## Conversation buffer (classifier.py, ConversationBuffer) -/

structure BufEntry where
  message : Msg
  timestamp : Int
deriving DecidableEq, Repr

/-- `ConversationBuffer`: per-user conversation windows. -/
structure ConversationBuffer where
  user_conversations : Nat → Option (List BufEntry)
  max_messages : Nat
  time_window : Int

/-- The appended window before `_clean_old_messages` prunes by age. -/
def filteredWindow (b : ConversationBuffer) (user_id : Nat) (m : Msg) (now : Int) :
    List BufEntry :=
  ((b.user_conversations user_id).getD [] ++ [({ message := m, timestamp := now } : BufEntry)]).filter
    fun e => decide (now - e.timestamp ≤ b.time_window)

/-- The user's window after `add_message` ran `_clean_old_messages`:
age-pruned, then truncated to the most recent `max_messages`. -/
def windowAfterAdd (b : ConversationBuffer) (user_id : Nat) (m : Msg) (now : Int) :
    List BufEntry :=
  if (filteredWindow b user_id m now).length > b.max_messages then
    pySliceLast b.max_messages (filteredWindow b user_id m now)
  else filteredWindow b user_id m now

/-- `ConversationBuffer.add_message` (appends, then `_clean_old_messages`). -/
def add_message (b : ConversationBuffer) (user_id : Nat) (m : Msg) (now : Int) :
    ConversationBuffer :=
  { b with user_conversations := fun u =>
      if u = user_id then some (windowAfterAdd b user_id m now)
      else b.user_conversations u }

/-- `ConversationBuffer.get_conversation_context`. -/
def get_conversation_context (b : ConversationBuffer) (user_id : Nat)
    (include_recent : Nat) : List Msg :=
  match b.user_conversations user_id with
  | none => []
  | some msgs => (pySliceLast include_recent msgs).map BufEntry.message

/-! ## Claim C9 -/

/-- C9: for every input string that is empty or shorter than 5 characters
after trimming whitespace, the classifier adapter returns the fixed result
probability 0, confidence 0.95, predicted class 0, not grooming, without
invoking the external model (the result is the same for every model). -/
theorem c9_short_input_short_circuits (model : String → RawPrediction)
    (text : String) (h : text = "" ∨ (pyStrip text.data).length < 5) :
    predict_grooming_probability model text =
      { grooming_probability := 0
        confidence := 19/20
        predicted_class := 0
        is_grooming := false
        filter_reason := "Empty or too short conversation" } := by
  unfold predict_grooming_probability
  rw [if_pos h]

/-- Witness for C9 at the concrete input " hi " and a model that would
report maximal risk were it consulted. -/
theorem c9_short_input_short_circuits_witness :
    predict_grooming_probability (fun _ => ⟨1, 1, 1, true⟩) " hi " =
      { grooming_probability := 0
        confidence := 19/20
        predicted_class := 0
        is_grooming := false
        filter_reason := "Empty or too short conversation" } :=
  c9_short_input_short_circuits (fun _ => ⟨1, 1, 1, true⟩) " hi "
    (Or.inr (by decide))

/-! ## Claim C10 -/

theorem truncate_length_le (maxM : Nat) (l : List α) (h : maxM ≠ 0) :
    (if l.length > maxM then pySliceLast maxM l else l).length ≤ maxM := by
  split
  · exact length_pySliceLast_le _ _ h
  · omega

theorem add_message_lookup (b : ConversationBuffer) (user_id : Nat) (m : Msg)
    (now : Int) :
    (add_message b user_id m now).user_conversations user_id =
      some (windowAfterAdd b user_id m now) := by
  unfold add_message
  simp

/-- C10: adding a message and immediately asking for context with n at least
the stored window size returns exactly the buffered messages in insertion
order, with length at most max_messages (for a positive cap, as in the
source default of 50); and a user id with no window entry yields an empty
context. -/
theorem c10_buffer_roundtrip (b : ConversationBuffer) (user_id : Nat) (m : Msg)
    (now : Int) (n : Nat) (hmax : 1 ≤ b.max_messages) :
    (∀ msgs, (add_message b user_id m now).user_conversations user_id = some msgs →
      msgs.length ≤ b.max_messages ∧
      (msgs.length ≤ n →
        get_conversation_context (add_message b user_id m now) user_id n =
          msgs.map BufEntry.message)) ∧
    (∀ uid2, b.user_conversations uid2 = none →
      get_conversation_context b uid2 n = []) := by
  constructor
  · intro msgs hmsgs
    rw [add_message_lookup] at hmsgs
    have hmsgs' : windowAfterAdd b user_id m now = msgs := Option.some.inj hmsgs
    constructor
    · rw [← hmsgs']
      unfold windowAfterAdd
      exact truncate_length_le _ _ (by omega)
    · intro hn
      unfold get_conversation_context
      rw [add_message_lookup, hmsgs']
      show (pySliceLast n msgs).map BufEntry.message = msgs.map BufEntry.message
      rw [pySliceLast_of_le _ hn]
  · intro uid2 h2
    unfold get_conversation_context
    rw [h2]

/-- Witness for C10: a fresh buffer with the default cap 50, one added
message, context width 10. -/
theorem c10_buffer_roundtrip_witness :
    (∀ msgs,
      (add_message ⟨fun _ => none, 50, 24⟩ 7 ⟨1, 2, "alice", "hi"⟩ 0).user_conversations 7 =
        some msgs →
      msgs.length ≤ 50 ∧
      (msgs.length ≤ 10 →
        get_conversation_context (add_message ⟨fun _ => none, 50, 24⟩ 7 ⟨1, 2, "alice", "hi"⟩ 0) 7 10 =
          msgs.map BufEntry.message)) ∧
    (∀ uid2, (⟨fun _ => none, 50, 24⟩ : ConversationBuffer).user_conversations uid2 = none →
      get_conversation_context ⟨fun _ => none, 50, 24⟩ uid2 10 = []) :=
  c10_buffer_roundtrip ⟨fun _ => none, 50, 24⟩ 7 ⟨1, 2, "alice", "hi"⟩ 0 10 (by decide)

/-! ## Risk profiles (classifier.py, UserRiskProfile) -/

/-- One entry of `predictions_history`. -/
structure PredEntry where
  timestamp : Nat
  grooming_probability : Rat
  confidence : Rat
  predicted_class : Nat
deriving DecidableEq, Repr

/-- A per-user risk profile dictionary. -/
structure UserProfile where
  risk_score : Rat
  total_messages : Nat
  flagged_messages : Nat
  predictions_history : List PredEntry
  last_updated : Nat
  highest_risk_score : Rat
deriving DecidableEq, Repr

/-- The profile created on first contact. -/
def freshProfile (now : Nat) : UserProfile :=
  { risk_score := 50
    total_messages := 0
    flagged_messages := 0
    predictions_history := []
    last_updated := now
    highest_risk_score := 50 }

/-- The `UserRiskProfile` instance: profile map plus the two thresholds
(defaults 0.7 and 0.8). -/
structure RiskStore where
  user_profiles : Nat → Option UserProfile
  grooming_threshold : Rat
  confidence_threshold : Rat

def initRiskStore : RiskStore :=
  { user_profiles := fun _ => none
    grooming_threshold := 7/10
    confidence_threshold := 4/5 }

/-- History after appending the new prediction entry and truncating to the
most recent 100 (`if len > 100: history = history[-100:]`). -/
def appendHistory (hist : List PredEntry) (e : PredEntry) : List PredEntry :=
  if (hist ++ [e]).length > 100 then pySliceLast 100 (hist ++ [e]) else hist ++ [e]

/-- The source's `weighted_scores` list: among `recent`, keep entries with
confidence above the threshold and weight probability by confidence. -/
def weightedScores (ct : Rat) (recent : List PredEntry) : List Rat :=
  (recent.filter fun e => decide (ct < e.confidence)).map
    fun e => e.grooming_probability * e.confidence

/-- The risk-score update over the most recent 10 entries of the (already
truncated) history: `risk = risk*0.7 + (avg_weighted*100)*0.3` when any
weighted score survives, otherwise unchanged. -/
def newRiskScore (ct : Rat) (risk : Rat) (hist : List PredEntry) : Rat :=
  if pySliceLast 10 hist = [] then risk
  else if weightedScores ct (pySliceLast 10 hist) = [] then risk
  else
    risk * (7/10) +
      ((weightedScores ct (pySliceLast 10 hist)).sum /
        ((weightedScores ct (pySliceLast 10 hist)).length : Rat) * 100) * (3/10)

/-- One profile's update inside `UserRiskProfile.update_user_score`:
increment totals, append and truncate history, increment flags on a jointly
above-threshold prediction, smooth the risk score, raise the high-water
mark. -/
def updateProfileCore (gt ct : Rat) (p0 : UserProfile) (pr : ClassificationResult)
    (now : Nat) : UserProfile :=
  { risk_score :=
      newRiskScore ct p0.risk_score
        (appendHistory p0.predictions_history
          ⟨now, pr.grooming_probability, pr.confidence, pr.predicted_class⟩)
    total_messages := p0.total_messages + 1
    flagged_messages :=
      p0.flagged_messages +
        (if gt < pr.grooming_probability ∧ ct < pr.confidence then 1 else 0)
    predictions_history :=
      appendHistory p0.predictions_history
        ⟨now, pr.grooming_probability, pr.confidence, pr.predicted_class⟩
    last_updated := now
    highest_risk_score :=
      max p0.highest_risk_score
        (newRiskScore ct p0.risk_score
          (appendHistory p0.predictions_history
            ⟨now, pr.grooming_probability, pr.confidence, pr.predicted_class⟩)) }

/-- `UserRiskProfile.update_user_score`: create the profile on first contact,
then apply the per-profile update. -/
def update_user_score (s : RiskStore) (user_id : Nat) (pr : ClassificationResult)
    (now : Nat) : RiskStore :=
  { s with user_profiles := fun u =>
      if u = user_id then
        some (updateProfileCore s.grooming_threshold s.confidence_threshold
          ((s.user_profiles user_id).getD (freshProfile now)) pr now)
      else s.user_profiles u }

/-- Reasons returned by `should_escalate` (format strings abstracted into
constructors carrying the interpolated values). -/
inductive EscReason
  | noProfileData
  | criticalRiskScore (score : Rat)
  | multipleHighConfidenceFlags (count : Nat)
  | consistentHighRisk (avg : Rat)
  | noEscalationNeeded
deriving DecidableEq, Repr

/-- Joint threshold test used by `should_escalate` (and the flag counter):
probability above the grooming threshold and confidence above the
confidence threshold. -/
def jointFlag (gt ct : Rat) (e : PredEntry) : Bool :=
  decide (gt < e.grooming_probability) && decide (ct < e.confidence)

/-- `UserRiskProfile.should_escalate`: rule 1 critical score, rule 2 at
least 3 jointly flagged among the last 10, rule 3 at least 3 jointly
flagged among the last 5 (when history has at least 5 entries). -/
def should_escalate_profile (gt ct : Rat) (profile : UserProfile) : Bool × EscReason :=
  if 90 ≤ profile.risk_score then
    (true, EscReason.criticalRiskScore profile.risk_score)
  else if 3 ≤ ((pySliceLast 10 profile.predictions_history).filter
      (jointFlag gt ct)).length then
    (true, EscReason.multipleHighConfidenceFlags
      ((pySliceLast 10 profile.predictions_history).filter (jointFlag gt ct)).length)
  else if 5 ≤ profile.predictions_history.length then
    if 3 ≤ ((pySliceLast 5 profile.predictions_history).filter (jointFlag gt ct)).length then
      (true, EscReason.consistentHighRisk
        ((((pySliceLast 5 profile.predictions_history).filter (jointFlag gt ct)).map
          PredEntry.grooming_probability).sum /
          (((pySliceLast 5 profile.predictions_history).filter
            (jointFlag gt ct)).length : Rat)))
    else (false, EscReason.noEscalationNeeded)
  else (false, EscReason.noEscalationNeeded)

def should_escalate (s : RiskStore) (user_id : Nat) : Bool × EscReason :=
  match s.user_profiles user_id with
  | none => (false, EscReason.noProfileData)
  | some profile =>
    should_escalate_profile s.grooming_threshold s.confidence_threshold profile

/-! ## Claim C2 -/

theorem update_user_score_lookup (s : RiskStore) (user_id : Nat)
    (pr : ClassificationResult) (now : Nat) :
    (update_user_score s user_id pr now).user_profiles user_id =
      some (updateProfileCore s.grooming_threshold s.confidence_threshold
        ((s.user_profiles user_id).getD (freshProfile now)) pr now) := by
  unfold update_user_score
  simp

/-- When every entry of the last-10 window has confidence at or below the
threshold, no weighted score survives and the risk score is untouched. -/
theorem newRiskScore_eq_of_all_low (ct risk : Rat) (hist : List PredEntry)
    (h : ∀ e ∈ pySliceLast 10 hist, e.confidence ≤ ct) :
    newRiskScore ct risk hist = risk := by
  unfold newRiskScore
  split
  · rfl
  · rw [if_pos]
    unfold weightedScores
    rw [List.filter_eq_nil_iff.mpr]
    · rfl
    · intro e he
      simp only [decide_eq_true_eq, not_lt]
      exact h e he

/-- Counterexample to C2 as stated: a profile whose history holds one prior
high-confidence entry (probability 0.9, confidence 0.9). An update whose own
confidence is 0.5, below the 0.8 threshold, still moves the risk score from
50 to 59.3, because the smoothing window re-reads prior entries. -/
def pC2 : UserProfile :=
  { risk_score := 50
    total_messages := 1
    flagged_messages := 1
    predictions_history := [⟨0, 9/10, 9/10, 1⟩]
    last_updated := 0
    highest_risk_score := 50 }

def storeC2 : RiskStore :=
  { user_profiles := fun u => if u = 1 then some pC2 else none
    grooming_threshold := 7/10
    confidence_threshold := 4/5 }

def prC2 : ClassificationResult :=
  { grooming_probability := 1/2
    confidence := 1/2
    predicted_class := 0
    is_grooming := false
    filter_reason := "" }

/-- C2 counterexample: with the default 0.8 threshold, a single call whose
confidence 0.5 is at or below the threshold changes risk_score (50 becomes
59.3), refuting the claim for this existing profile. -/
theorem c2_counterexample :
    prC2.confidence ≤ storeC2.confidence_threshold ∧
    (((update_user_score storeC2 1 prC2 1).user_profiles 1).getD (freshProfile 0)).risk_score
      = 593/10 ∧ (593/10 : Rat) ≠ pC2.risk_score := by
  refine ⟨by norm_num [prC2, storeC2], ?_, by norm_num [pC2]⟩
  rw [update_user_score_lookup]
  show (updateProfileCore storeC2.grooming_threshold storeC2.confidence_threshold
    ((storeC2.user_profiles 1).getD (freshProfile 1)) prC2 1).risk_score = 593/10
  norm_num [storeC2, pC2, prC2, updateProfileCore, newRiskScore, appendHistory,
    weightedScores, pySliceLast, List.filter, ne_eq, List.cons_ne_nil]

/-- C2 amended: a single update with confidence at or below the threshold
leaves risk_score unchanged provided additionally that every entry among the
10 most recent of the updated prediction history has confidence at or below
the threshold; highest_risk_score is then also unchanged whenever the
profile satisfied highest at least risk. -/
theorem c2_amended (s : RiskStore) (user_id : Nat) (pr : ClassificationResult)
    (now : Nat) (p : UserProfile)
    (hp : s.user_profiles user_id = some p)
    (hconf : pr.confidence ≤ s.confidence_threshold)
    (hall : ∀ e ∈ pySliceLast 10 (appendHistory p.predictions_history
        ⟨now, pr.grooming_probability, pr.confidence, pr.predicted_class⟩),
      e.confidence ≤ s.confidence_threshold) :
    ∀ p2, (update_user_score s user_id pr now).user_profiles user_id = some p2 →
      p2.risk_score = p.risk_score ∧
      (p.risk_score ≤ p.highest_risk_score →
        p2.highest_risk_score = p.highest_risk_score) := by
  intro p2 h2
  rw [update_user_score_lookup] at h2
  have h2' := Option.some.inj h2
  rw [hp, Option.getD_some] at h2'
  have hrisk : p2.risk_score = p.risk_score := by
    rw [← h2']
    show newRiskScore s.confidence_threshold p.risk_score _ = p.risk_score
    exact newRiskScore_eq_of_all_low _ _ _ hall
  refine ⟨hrisk, fun hhi => ?_⟩
  rw [← h2']
  show max p.highest_risk_score (newRiskScore s.confidence_threshold p.risk_score _)
    = p.highest_risk_score
  rw [newRiskScore_eq_of_all_low _ _ _ hall]
  exact max_eq_left hhi

/-- The store and the profile produced by the concrete low-confidence update
exercised by the C2 witness (integer thresholds for kernel evaluation). -/
def c2WitnessStore : RiskStore :=
  ⟨fun u => if u = 1 then some (freshProfile 0) else none, 0, 1⟩

def c2WitnessProfile : UserProfile :=
  { risk_score := 50
    total_messages := 1
    flagged_messages := 0
    predictions_history := [⟨3, 0, 0, 0⟩]
    last_updated := 3
    highest_risk_score := 50 }

/-- Witness for the amended C2 at a concrete store: risk and highest scores
survive the low-confidence update unchanged. -/
theorem c2_amended_witness :
    c2WitnessProfile.risk_score = (freshProfile 0).risk_score ∧
    c2WitnessProfile.highest_risk_score = (freshProfile 0).highest_risk_score := by
  have h := c2_amended c2WitnessStore 1 ⟨0, 0, 0, false, ""⟩ 3 (freshProfile 0)
    (by decide) (by decide) (by decide) c2WitnessProfile (by decide)
  exact ⟨h.1, h.2 (by decide)⟩

/-! ## Claim C3 -/

/-- A store with no profiles yet and the given thresholds (the source
defaults are 0.7 and 0.8, as in `initRiskStore`). -/
def emptyRiskStore (gt ct : Rat) : RiskStore :=
  { user_profiles := fun _ => none
    grooming_threshold := gt
    confidence_threshold := ct }

/-- Entry bounds: probability and confidence lie in [0,1]. -/
def GoodEntry (e : PredEntry) : Prop :=
  0 ≤ e.grooming_probability ∧ e.grooming_probability ≤ 1 ∧
    0 ≤ e.confidence ∧ e.confidence ≤ 1

/-- Profile invariant established by `update_user_score`. -/
def GoodProfile (p : UserProfile) : Prop :=
  (0 ≤ p.risk_score ∧ p.risk_score ≤ 100) ∧
    p.risk_score ≤ p.highest_risk_score ∧
    ∀ e ∈ p.predictions_history, GoodEntry e

theorem freshProfile_good (now : Nat) : GoodProfile (freshProfile now) := by
  refine ⟨⟨by norm_num [freshProfile], by norm_num [freshProfile]⟩, le_refl _, ?_⟩
  intro e he
  simp [freshProfile] at he

theorem appendHistory_mem {hist : List PredEntry} {e x : PredEntry}
    (hx : x ∈ appendHistory hist e) : x ∈ hist ∨ x = e := by
  unfold appendHistory at hx
  have : x ∈ hist ++ [e] := by
    rcases (by assumption : x ∈ _) with _
    revert hx
    split
    · intro hx
      exact (pySliceLast_sublist _ _).subset hx
    · intro hx
      exact hx
  rcases List.mem_append.mp this with h | h
  · exact Or.inl h
  · exact Or.inr (List.mem_singleton.mp h)

theorem weightedScores_bounds {ct : Rat} {recent : List PredEntry}
    (hrec : ∀ e ∈ recent, GoodEntry e) :
    ∀ x ∈ weightedScores ct recent, 0 ≤ x ∧ x ≤ 1 := by
  intro x hx
  unfold weightedScores at hx
  obtain ⟨e, he, rfl⟩ := List.mem_map.mp hx
  obtain ⟨h1, h2, h3, h4⟩ := hrec e (List.mem_of_mem_filter he)
  exact ⟨mul_nonneg h1 h3, mul_le_one₀ h2 h3 h4⟩

theorem newRiskScore_bounds (ct : Rat) {risk : Rat} {hist : List PredEntry}
    (hrisk : 0 ≤ risk ∧ risk ≤ 100) (hhist : ∀ e ∈ hist, GoodEntry e) :
    0 ≤ newRiskScore ct risk hist ∧ newRiskScore ct risk hist ≤ 100 := by
  unfold newRiskScore
  split
  · exact hrisk
  · split
    · exact hrisk
    · rename_i hne
      have hmem : ∀ x ∈ weightedScores ct (pySliceLast 10 hist), 0 ≤ x ∧ x ≤ 1 :=
        weightedScores_bounds fun e he => hhist e ((pySliceLast_sublist _ _).subset he)
      have hlen : 0 < ((weightedScores ct (pySliceLast 10 hist)).length : Rat) := by
        have : weightedScores ct (pySliceLast 10 hist) ≠ [] := hne
        have : 0 < (weightedScores ct (pySliceLast 10 hist)).length :=
          List.length_pos.mpr this
        exact_mod_cast this
      have hsum0 : 0 ≤ (weightedScores ct (pySliceLast 10 hist)).sum :=
        list_sum_nonneg _ fun x hx => (hmem x hx).1
      have hsum1 : (weightedScores ct (pySliceLast 10 hist)).sum ≤
          ((weightedScores ct (pySliceLast 10 hist)).length : Rat) :=
        list_sum_le_length _ fun x hx => (hmem x hx).2
      have havg0 : 0 ≤ (weightedScores ct (pySliceLast 10 hist)).sum /
          ((weightedScores ct (pySliceLast 10 hist)).length : Rat) :=
        div_nonneg hsum0 (le_of_lt hlen)
      have havg1 : (weightedScores ct (pySliceLast 10 hist)).sum /
          ((weightedScores ct (pySliceLast 10 hist)).length : Rat) ≤ 1 :=
        (div_le_one hlen).mpr hsum1
      constructor
      · have h1 : 0 ≤ risk * (7/10) := by nlinarith [hrisk.1]
        nlinarith
      · nlinarith [hrisk.2]

theorem updateProfileCore_good {gt ct : Rat} {p : UserProfile}
    {pr : ClassificationResult} {now : Nat}
    (hp : GoodProfile p)
    (hpr : 0 ≤ pr.grooming_probability ∧ pr.grooming_probability ≤ 1 ∧
      0 ≤ pr.confidence ∧ pr.confidence ≤ 1) :
    GoodProfile (updateProfileCore gt ct p pr now) := by
  obtain ⟨hrisk, hhi, hhist⟩ := hp
  have hhist' : ∀ e ∈ appendHistory p.predictions_history
      ⟨now, pr.grooming_probability, pr.confidence, pr.predicted_class⟩, GoodEntry e := by
    intro e he
    rcases appendHistory_mem he with h | h
    · exact hhist e h
    · subst h
      exact ⟨hpr.1, hpr.2.1, hpr.2.2.1, hpr.2.2.2⟩
  have hnew := newRiskScore_bounds ct hrisk hhist'
  exact ⟨hnew, le_max_right _ _, hhist'⟩

theorem updateProfileCore_highest_mono (gt ct : Rat) (p : UserProfile)
    (pr : ClassificationResult) (now : Nat) :
    p.highest_risk_score ≤ (updateProfileCore gt ct p pr now).highest_risk_score :=
  le_max_left _ _

/-- `GoodProfile` holds for every stored profile. -/
def GoodStore (s : RiskStore) : Prop :=
  ∀ u p, s.user_profiles u = some p → GoodProfile p

theorem update_user_score_goodStore {s : RiskStore} {user_id : Nat}
    {pr : ClassificationResult} {now : Nat}
    (hs : GoodStore s)
    (hpr : 0 ≤ pr.grooming_probability ∧ pr.grooming_probability ≤ 1 ∧
      0 ≤ pr.confidence ∧ pr.confidence ≤ 1) :
    GoodStore (update_user_score s user_id pr now) := by
  intro u p h
  unfold update_user_score at h
  simp only at h
  by_cases hu : u = user_id
  · rw [if_pos hu] at h
    have h' := Option.some.inj h
    have hbase : GoodProfile ((s.user_profiles user_id).getD (freshProfile now)) := by
      cases hq : s.user_profiles user_id with
      | none => rw [Option.getD_none]; exact freshProfile_good now
      | some q => rw [Option.getD_some]; exact hs user_id q hq
    rw [← h']
    exact updateProfileCore_good hbase hpr
  · rw [if_neg hu] at h
    exact hs u p h

/-- Sequence of `update_user_score` calls for one user. -/
def applyUpdates (s : RiskStore) (user_id : Nat)
    (calls : List (ClassificationResult × Nat)) : RiskStore :=
  calls.foldl (fun st c => update_user_score st user_id c.1 c.2) s

theorem applyUpdates_goodStore {s : RiskStore} {user_id : Nat}
    {calls : List (ClassificationResult × Nat)}
    (hs : GoodStore s)
    (hcalls : ∀ c ∈ calls, 0 ≤ c.1.grooming_probability ∧ c.1.grooming_probability ≤ 1 ∧
      0 ≤ c.1.confidence ∧ c.1.confidence ≤ 1) :
    GoodStore (applyUpdates s user_id calls) := by
  induction calls generalizing s with
  | nil => exact hs
  | cons c rest ih =>
    exact ih
      (update_user_score_goodStore hs (hcalls c (List.mem_cons_self c rest)))
      (fun d hd => hcalls d (List.mem_cons_of_mem c hd))

/-- High-water mark of the user after a call sequence from an empty store
(50 when the profile does not exist yet). -/
def highestAfter (gt ct : Rat) (user_id : Nat)
    (calls : List (ClassificationResult × Nat)) : Rat :=
  ((applyUpdates (emptyRiskStore gt ct) user_id calls).user_profiles user_id).elim
    50 UserProfile.highest_risk_score

theorem update_highest_mono (s : RiskStore) (user_id : Nat)
    (pr : ClassificationResult) (now : Nat) :
    (s.user_profiles user_id).elim 50 UserProfile.highest_risk_score ≤
      ((update_user_score s user_id pr now).user_profiles user_id).elim
        50 UserProfile.highest_risk_score := by
  rw [update_user_score_lookup]
  cases hq : s.user_profiles user_id with
  | none =>
    simp only [hq, Option.getD_none, Option.elim]
    exact le_max_left _ _
  | some q =>
    simp only [hq, Option.getD_some, Option.elim]
    exact updateProfileCore_highest_mono _ _ _ _ _

/-- C3: for every sequence of updates applied to a freshly created profile
(seeded at 50) with probabilities and confidences in [0,1], after every call
the risk score lies in [0,100] and is at most the high-water mark, and the
high-water mark never decreases from one call to the next. -/
theorem c3_risk_invariants (gt ct : Rat) (user_id : Nat)
    (calls : List (ClassificationResult × Nat))
    (hcalls : ∀ c ∈ calls, 0 ≤ c.1.grooming_probability ∧ c.1.grooming_probability ≤ 1 ∧
      0 ≤ c.1.confidence ∧ c.1.confidence ≤ 1) :
    (∀ p, (applyUpdates (emptyRiskStore gt ct) user_id calls).user_profiles user_id = some p →
      (0 ≤ p.risk_score ∧ p.risk_score ≤ 100) ∧ p.risk_score ≤ p.highest_risk_score) ∧
    (∀ extra : ClassificationResult × Nat,
      highestAfter gt ct user_id calls ≤ highestAfter gt ct user_id (calls ++ [extra])) := by
  constructor
  · intro p hp
    have hgood : GoodStore (applyUpdates (emptyRiskStore gt ct) user_id calls) :=
      applyUpdates_goodStore (fun u q hq => by simp [emptyRiskStore] at hq) hcalls
    obtain ⟨h1, h2, _⟩ := hgood user_id p hp
    exact ⟨h1, h2⟩
  · intro extra
    unfold highestAfter applyUpdates
    rw [List.foldl_append]
    exact update_highest_mono _ user_id extra.1 extra.2

/-- Witness for C3 at a concrete one-call sequence on an empty store with
integer thresholds (requirement on inputs discharged by decide). -/
theorem c3_risk_invariants_witness :
    (∀ p, (applyUpdates (emptyRiskStore 0 1) 1
        [(⟨0, 0, 0, false, ""⟩, 0)]).user_profiles 1 = some p →
      (0 ≤ p.risk_score ∧ p.risk_score ≤ 100) ∧ p.risk_score ≤ p.highest_risk_score) ∧
    (∀ extra : ClassificationResult × Nat,
      highestAfter 0 1 1 [(⟨0, 0, 0, false, ""⟩, 0)] ≤
        highestAfter 0 1 1 ([(⟨0, 0, 0, false, ""⟩, 0)] ++ [extra])) :=
  c3_risk_invariants 0 1 1 [(⟨0, 0, 0, false, ""⟩, 0)] (by decide)

/-! ## Claims C5 and C6 -/

/-- The jointly flagged entries among the last 5 are a sub-collection of
those among the last 10, so their count is never larger. -/
theorem filter_last5_le_last10 (gt ct : Rat) (hist : List PredEntry) :
    ((pySliceLast 5 hist).filter (jointFlag gt ct)).length ≤
      ((pySliceLast 10 hist).filter (jointFlag gt ct)).length :=
  ((pySliceLast_sublist_of_le hist (by omega) (by omega)).filter
    (jointFlag gt ct)).length_le

/-- C5: whenever the stored profile has risk score below 90 and fewer than 3
jointly above-threshold entries among its most recent 10 predictions,
should_escalate answers false; and it answers false for any user id with no
profile. -/
theorem c5_should_escalate_false (s : RiskStore) (user_id : Nat)
    (h : ∀ p, s.user_profiles user_id = some p →
      p.risk_score < 90 ∧
        ((pySliceLast 10 p.predictions_history).filter
          (jointFlag s.grooming_threshold s.confidence_threshold)).length < 3) :
    (should_escalate s user_id).1 = false := by
  unfold should_escalate
  cases hq : s.user_profiles user_id with
  | none => rfl
  | some p =>
    obtain ⟨h90, hcnt⟩ := h p hq
    show (should_escalate_profile s.grooming_threshold s.confidence_threshold p).1 = false
    unfold should_escalate_profile
    rw [if_neg (not_le.mpr h90), if_neg (by omega)]
    have h5 := filter_last5_le_last10 s.grooming_threshold s.confidence_threshold
      p.predictions_history
    split
    · rw [if_neg (by omega)]
    · rfl

/-- Witness for C5 at a concrete store holding one below-threshold profile
and at a user id with no profile. -/
theorem c5_should_escalate_false_witness :
    (should_escalate ⟨fun u => if u = 2 then some (freshProfile 0) else none, 0, 1⟩ 2).1
      = false ∧
    (should_escalate ⟨fun u => if u = 2 then some (freshProfile 0) else none, 0, 1⟩ 9).1
      = false :=
  ⟨c5_should_escalate_false ⟨fun u => if u = 2 then some (freshProfile 0) else none, 0, 1⟩ 2
    (by decide),
   c5_should_escalate_false ⟨fun u => if u = 2 then some (freshProfile 0) else none, 0, 1⟩ 9
    (by decide)⟩

/-- C6: the third escalation rule is dead code: whenever at least 3 of the
most recent 5 entries are jointly above both thresholds, so are at least 3
of the most recent 10, and rule 2 fires first; hence no call to
should_escalate ever returns the consistent-high-risk reason. -/
theorem c6_consistent_reason_unreachable (s : RiskStore) (user_id : Nat) (a : Rat) :
    (should_escalate s user_id).2 ≠ EscReason.consistentHighRisk a := by
  unfold should_escalate
  cases hq : s.user_profiles user_id with
  | none =>
    show EscReason.noProfileData ≠ EscReason.consistentHighRisk a
    simp
  | some p =>
    show (should_escalate_profile s.grooming_threshold s.confidence_threshold p).2 ≠
      EscReason.consistentHighRisk a
    unfold should_escalate_profile
    have h5 := filter_last5_le_last10 s.grooming_threshold s.confidence_threshold
      p.predictions_history
    by_cases h90 : 90 ≤ p.risk_score
    · rw [if_pos h90]
      simp
    · rw [if_neg h90]
      by_cases hcnt10 : 3 ≤ ((pySliceLast 10 p.predictions_history).filter
          (jointFlag s.grooming_threshold s.confidence_threshold)).length
      · rw [if_pos hcnt10]
        simp
      · rw [if_neg hcnt10]
        by_cases hlen : 5 ≤ p.predictions_history.length
        · rw [if_pos hlen, if_neg (by omega)]
          simp
        · rw [if_neg hlen]
          simp

/-! ## Moderation cases (bot.py, ModReport / ModAction) -/

inductive ModAction
  | REPORT_TO_LAW
  | BAN_USER
  | INCREASE_SCORE
  | SUSPEND_ACCOUNT
  | NO_ACTION
  | SKIP
deriving DecidableEq, Repr

inductive CaseStatus
  | pending
  | completed
deriving DecidableEq, Repr

/-- A `ModReport` instance (timestamp abstracted to a Nat instant). -/
structure ModReport where
  reporter_id : Nat
  reported_user_id : Nat
  message : Msg
  reason : String
  details : String
  score : Int
  ml_prediction : Option ClassificationResult
  timestamp : Nat
  status : CaseStatus
  mod_actions : List ModAction
deriving DecidableEq, Repr

/-! ## Claim C4 (bot.py, ModBot.increase_user_score) -/

/-- The slices of `ModBot` state touched by `increase_user_score`. -/
structure ModBotState where
  user_scores : Nat → Option Int
  risk_profiles : RiskStore

/-- `ModBot.increase_user_score`: reject values outside [0,100]; otherwise
record the new score, overwrite the in-memory profile risk_score with
`100 - new_score`, mark the case completed and log the action. -/
def increase_user_score (bs : ModBotState) (report : ModReport) (new_score : Int) :
    ModBotState × ModReport :=
  if new_score < 0 ∨ 100 < new_score then (bs, report)
  else
    let rp :=
      match bs.risk_profiles.user_profiles report.reported_user_id with
      | some p =>
        { bs.risk_profiles with user_profiles := fun u =>
            (if u = report.reported_user_id then
              some ({ p with risk_score := (100 : Rat) - (new_score : Rat) })
            else bs.risk_profiles.user_profiles u) }
      | none => bs.risk_profiles
    ({ user_scores := fun u =>
        if u = report.reported_user_id then some new_score else bs.user_scores u
       risk_profiles := rp },
     { report with
        status := CaseStatus.completed
        mod_actions := report.mod_actions ++ [ModAction.INCREASE_SCORE] })

/-- A reachable bot state: one automatic update on a fresh user 7 (risk
stays 50, high-water mark 50), thresholds at the source defaults. -/
def bsC4 : ModBotState :=
  { user_scores := fun _ => none
    risk_profiles := update_user_score (emptyRiskStore (7/10) (4/5)) 7
      ⟨0, 0, 0, false, ""⟩ 0 }

def reportC4 : ModReport :=
  { reporter_id := 1
    reported_user_id := 7
    message := ⟨11, 7, "bob", "hello there"⟩
    reason := "Child Safety Concern"
    details := ""
    score := 30
    ml_prediction := none
    timestamp := 0
    status := CaseStatus.pending
    mod_actions := [] }

/-- C4: the moderator score-adjustment action sets the reported user's
profile risk_score to 100 - v, not v, and leaves highest_risk_score alone;
on a reachable profile (fresh user, one automatic update) taking v = 0
leaves highest_risk_score below risk_score, a state no update_user_score
call produces for the profile it writes; and v outside [0,100] is rejected
with state and case unchanged. -/
theorem c4_increase_inverts_score :
    (∀ (bs : ModBotState) (report : ModReport) (v : Int) (p : UserProfile),
      0 ≤ v → v ≤ 100 →
      bs.risk_profiles.user_profiles report.reported_user_id = some p →
      ∀ p2, (increase_user_score bs report v).1.risk_profiles.user_profiles
          report.reported_user_id = some p2 →
        p2.risk_score = (100 : Rat) - (v : Rat) ∧
        p2.highest_risk_score = p.highest_risk_score) ∧
    (∀ p2, (increase_user_score bsC4 reportC4 0).1.risk_profiles.user_profiles 7 = some p2 →
      p2.highest_risk_score < p2.risk_score) ∧
    (∀ (s : RiskStore) (user_id : Nat) (pr : ClassificationResult) (now : Nat) (p2 : UserProfile),
      (update_user_score s user_id pr now).user_profiles user_id = some p2 →
      p2.risk_score ≤ p2.highest_risk_score) ∧
    (∀ (bs : ModBotState) (report : ModReport) (v : Int),
      (v < 0 ∨ 100 < v) → increase_user_score bs report v = (bs, report)) := by
  refine ⟨?_, ?_, ?_, ?_⟩
  · intro bs report v p hv0 hv100 hp p2 h2
    unfold increase_user_score at h2
    rw [if_neg (by omega)] at h2
    simp [hp] at h2
    rw [← h2]
    exact ⟨rfl, rfl⟩
  · intro p2 h2
    unfold increase_user_score at h2
    rw [if_neg (by omega)] at h2
    have hlook : bsC4.risk_profiles.user_profiles 7 =
        some (updateProfileCore (7/10) (4/5) (freshProfile 0) ⟨0, 0, 0, false, ""⟩ 0) := by
      show (update_user_score (emptyRiskStore (7/10) (4/5)) 7
        ⟨0, 0, 0, false, ""⟩ 0).user_profiles 7 = _
      rw [update_user_score_lookup]
      rfl
    simp only [reportC4] at h2
    simp [hlook] at h2
    rw [← h2]
    show (updateProfileCore (7/10) (4/5) (freshProfile 0)
      ⟨0, 0, 0, false, ""⟩ 0).highest_risk_score < (100 : Rat)
    norm_num [updateProfileCore, newRiskScore, appendHistory, weightedScores,
      pySliceLast, freshProfile, List.filter, ne_eq, List.cons_ne_nil]
  · intro s user_id pr now p2 h2
    rw [update_user_score_lookup] at h2
    have h2' := Option.some.inj h2
    rw [← h2']
    exact le_max_right _ _
  · intro bs report v hv
    unfold increase_user_score
    rw [if_pos hv]

/-- Witness for C4 at concrete inputs: the in-range branch on the reachable
state (v = 25 gives risk 75 with untouched high-water mark) and the
out-of-range rejection at v = 200. -/
theorem c4_increase_inverts_score_witness :
    (∀ p2, (increase_user_score bsC4 reportC4 25).1.risk_profiles.user_profiles 7 = some p2 →
      p2.risk_score = (100 : Rat) - ((25 : Int) : Rat) ∧
      p2.highest_risk_score = (updateProfileCore (7/10) (4/5) (freshProfile 0)
        ⟨0, 0, 0, false, ""⟩ 0).highest_risk_score) ∧
    increase_user_score bsC4 reportC4 200 = (bsC4, reportC4) := by
  constructor
  · intro p2 h2
    refine c4_increase_inverts_score.1 bsC4 reportC4 25
      (updateProfileCore (7/10) (4/5) (freshProfile 0) ⟨0, 0, 0, false, ""⟩ 0)
      (by decide) (by decide) ?_ p2 h2
    show (update_user_score (emptyRiskStore (7/10) (4/5)) 7
      ⟨0, 0, 0, false, ""⟩ 0).user_profiles 7 = _
    rw [update_user_score_lookup]
    rfl
  · exact c4_increase_inverts_score.2.2.2 bsC4 reportC4 200 (by decide)

/-! ## Claim C7 (bot.py, ModBot.show_next_report) -/

/-- Whether the case at index i (when it exists) is pending. -/
def pendingAt (q : List ModReport) (i : Nat) : Bool :=
  (q[i]?).any fun r => decide (r.status = CaseStatus.pending)

/-- The `for _ in range(len(self.mod_reports))` loop of `show_next_report`:
advance the cursor cyclically, stop on the first pending case; the for-else
branch (fuel exhausted) reports nothing selected, leaving the cursor where
the loop last put it. -/
def nextLoop (q : List ModReport) : Nat → Int → Int × Option Nat
  | 0, cur => (cur, none)
  | fuel+1, cur =>
    if pendingAt q (((cur + 1) % (q.length : Int)).toNat) then
      ((cur + 1) % (q.length : Int), some (((cur + 1) % (q.length : Int)).toNat))
    else nextLoop q fuel ((cur + 1) % (q.length : Int))

/-- `ModBot.show_next_report`, reduced to its cursor-and-selection effect:
returns the new cursor and the selected index (none when the queue is empty
or no case is pending). -/
def show_next_report (q : List ModReport) (cur : Int) : Int × Option Nat :=
  if q.length = 0 then (cur, none) else nextLoop q q.length cur

theorem int_add_self_emod (a b : Int) : (a + b) % b = a % b := by
  simpa using Int.add_mul_emod_self_left (a := a) (b := b) (c := 1)

theorem nextLoop_some_pending (q : List ModReport) :
    ∀ (fuel : Nat) (cur : Int) (i : Nat),
      (nextLoop q fuel cur).2 = some i → pendingAt q i = true := by
  intro fuel
  induction fuel with
  | zero =>
    intro cur i h
    simp [nextLoop] at h
  | succ f ih =>
    intro cur i h
    unfold nextLoop at h
    split at h
    · rename_i hp
      have : (((cur + 1) % (q.length : Int)).toNat) = i := by
        simpa using congrArg (fun o => o.getD 0) h
      rw [← this]
      exact hp
    · exact ih _ _ h

theorem pendingAt_false_of_no_pending {q : List ModReport}
    (h : ∀ r ∈ q, r.status ≠ CaseStatus.pending) (i : Nat) :
    pendingAt q i = false := by
  unfold pendingAt
  cases hq : q[i]? with
  | none => rfl
  | some r =>
    simp only [Option.any_some, decide_eq_false_iff_not]
    exact h r (List.getElem?_mem hq)

theorem nextLoop_none_of_no_pending {q : List ModReport}
    (h : ∀ r ∈ q, r.status ≠ CaseStatus.pending) :
    ∀ (fuel : Nat) (cur : Int), (nextLoop q fuel cur).2 = none := by
  intro fuel
  induction fuel with
  | zero => intro cur; rfl
  | succ f ih =>
    intro cur
    unfold nextLoop
    rw [if_neg (by simp [pendingAt_false_of_no_pending h])]
    exact ih _

theorem nextLoop_none_fst (q : List ModReport) :
    ∀ (fuel : Nat) (cur : Int), fuel ≠ 0 → (nextLoop q fuel cur).2 = none →
      (nextLoop q fuel cur).1 = (cur + fuel) % (q.length : Int) := by
  intro fuel
  induction fuel with
  | zero => intro cur h; exact absurd rfl h
  | succ f ih =>
    intro cur _ hnone
    unfold nextLoop at hnone ⊢
    by_cases hp : pendingAt q (((cur + 1) % (q.length : Int)).toNat) = true
    · rw [if_pos hp] at hnone
      simp at hnone
    · rw [if_neg hp] at hnone ⊢
      by_cases hf : f = 0
      · subst hf
        show (cur + 1) % (q.length : Int) = _
        congr 1
      · rw [ih _ hf hnone, Int.emod_add_emod]
        congr 1
        push_cast
        ring

theorem nextLoop_none_visited (q : List ModReport) :
    ∀ (fuel : Nat) (cur : Int), (nextLoop q fuel cur).2 = none →
      ∀ k : Nat, 1 ≤ k → k ≤ fuel →
        pendingAt q (((cur + k) % (q.length : Int)).toNat) = false := by
  intro fuel
  induction fuel with
  | zero => intro cur _ k h1 h2; omega
  | succ f ih =>
    intro cur hnone k h1 h2
    unfold nextLoop at hnone
    by_cases hp : pendingAt q (((cur + 1) % (q.length : Int)).toNat) = true
    · rw [if_pos hp] at hnone
      simp at hnone
    · rw [if_neg hp] at hnone
      rcases Nat.eq_or_lt_of_le h1 with h1' | h1'
      · rw [← h1']
        push_cast
        simp only [Bool.not_eq_true] at hp
        exact hp
      · have hk := ih ((cur + 1) % (q.length : Int)) hnone (k - 1) (by omega) (by omega)
        have he : ((cur + 1) % (q.length : Int) + ((k : Int) - 1)) % (q.length : Int) =
            (cur + (k : Int)) % (q.length : Int) := by
          rw [Int.emod_add_emod]
          congr 1
          ring
        rw [show ((k - 1 : Nat) : Int) = (k : Int) - 1 by
          push_cast [Nat.cast_sub (by omega : 1 ≤ k)]; ring] at hk
        rw [he] at hk
        exact hk

theorem show_next_report_finds (q : List ModReport) (cur : Int)
    (hex : ∃ r ∈ q, r.status = CaseStatus.pending) :
    ∃ i, (show_next_report q cur).2 = some i := by
  obtain ⟨r, hr, hst⟩ := hex
  have hq : q.length ≠ 0 := by
    have := List.length_pos.mpr (List.ne_nil_of_mem hr)
    omega
  obtain ⟨j, hj, hgetj⟩ := List.mem_iff_getElem.mp hr
  have hpend : pendingAt q j = true := by
    unfold pendingAt
    rw [List.getElem?_eq_getElem hj]
    simp only [Option.any_some, decide_eq_true_eq]
    rw [hgetj]
    exact hst
  unfold show_next_report
  rw [if_neg hq]
  cases hres : (nextLoop q q.length cur).2 with
  | some i => exact ⟨i, rfl⟩
  | none =>
    exfalso
    have hnpos : (0 : Int) < (q.length : Int) := by exact_mod_cast Nat.pos_of_ne_zero hq
    have hnne : (q.length : Int) ≠ 0 := by omega
    by_cases h0 : ((j : Int) - cur) % (q.length : Int) = 0
    · have visited := nextLoop_none_visited q q.length cur hres q.length
        (by omega) (le_refl _)
      have hdvd : ((q.length : Int)) ∣ ((j : Int) - cur) := Int.dvd_of_emod_eq_zero h0
      have e1 : (cur + (q.length : Int)) % (q.length : Int) = cur % (q.length : Int) :=
        int_add_self_emod _ _
      have e2 : cur % (q.length : Int) = (j : Int) % (q.length : Int) := by
        rw [Int.emod_eq_emod_iff_emod_sub_eq_zero]
        refine Int.emod_eq_zero_of_dvd ?_
        have : cur - (j : Int) = -((j : Int) - cur) := by ring
        rw [this]
        exact dvd_neg.mpr hdvd
      have e3 : ((j : Int)) % (q.length : Int) = (j : Int) :=
        Int.emod_eq_of_lt (by positivity) (by exact_mod_cast hj)
      rw [e1, e2, e3] at visited
      rw [Int.toNat_natCast] at visited
      rw [visited] at hpend
      exact Bool.noConfusion hpend
    · have hd0 : 0 ≤ ((j : Int) - cur) % (q.length : Int) := Int.emod_nonneg _ hnne
      have hdlt : ((j : Int) - cur) % (q.length : Int) < (q.length : Int) :=
        Int.emod_lt_of_pos _ hnpos
      have visited := nextLoop_none_visited q q.length cur hres
        ((((j : Int) - cur) % (q.length : Int)).toNat) (by omega) (by omega)
      have hcast : (((((j : Int) - cur) % (q.length : Int)).toNat : Int)) =
          ((j : Int) - cur) % (q.length : Int) := Int.toNat_of_nonneg hd0
      rw [hcast] at visited
      have he : (cur + ((j : Int) - cur) % (q.length : Int)) % (q.length : Int) = (j : Int) := by
        rw [add_comm cur _, Int.emod_add_emod]
        have : ((j : Int) - cur + cur) = (j : Int) := by ring
        rw [this]
        exact Int.emod_eq_of_lt (by positivity) (by exact_mod_cast hj)
      rw [he, Int.toNat_natCast] at visited
      rw [visited] at hpend
      exact Bool.noConfusion hpend

theorem nextLoop_congr_start (q2 : List ModReport) (fuel : Nat) (hf : fuel ≠ 0)
    (cur cur' : Int)
    (h : (cur + 1) % (q2.length : Int) = (cur' + 1) % (q2.length : Int)) :
    nextLoop q2 fuel cur = nextLoop q2 fuel cur' := by
  cases fuel with
  | zero => exact absurd rfl hf
  | succ f =>
    unfold nextLoop
    rw [h]

/-- C7: the queue's next operation lands only on pending cases; it selects
some pending case whenever one exists; and when none is pending it reports
the empty condition (no selection, no exception in the total model) and the
cursor it leaves behind is observationally equivalent to the old one: every
later next call on any same-length queue behaves identically. -/
theorem c7_queue_next_pending (q : List ModReport) (cur : Int) :
    (∀ i, (show_next_report q cur).2 = some i → pendingAt q i = true) ∧
    ((∃ r ∈ q, r.status = CaseStatus.pending) →
      ∃ i, (show_next_report q cur).2 = some i) ∧
    ((∀ r ∈ q, r.status ≠ CaseStatus.pending) →
      (show_next_report q cur).2 = none ∧
      ∀ q2 : List ModReport, q2.length = q.length →
        show_next_report q2 (show_next_report q cur).1 = show_next_report q2 cur) := by
  refine ⟨?_, ?_, ?_⟩
  · intro i hi
    unfold show_next_report at hi
    by_cases hq : q.length = 0
    · rw [if_pos hq] at hi
      exact absurd hi (by simp)
    · rw [if_neg hq] at hi
      exact nextLoop_some_pending q q.length cur i hi
  · exact show_next_report_finds q cur
  · intro hnp
    by_cases hq : q.length = 0
    · refine ⟨by unfold show_next_report; rw [if_pos hq], ?_⟩
      intro q2 hlen
      have : (show_next_report q cur).1 = cur := by
        unfold show_next_report
        rw [if_pos hq]
      rw [this]
    · have hnone := nextLoop_none_of_no_pending hnp q.length cur
      have hsnd : (show_next_report q cur).2 = none := by
        unfold show_next_report
        rw [if_neg hq]
        exact hnone
      refine ⟨hsnd, ?_⟩
      intro q2 hlen
      have hfst : (show_next_report q cur).1 = (cur + (q.length : Int)) % (q.length : Int) := by
        unfold show_next_report
        rw [if_neg hq]
        exact nextLoop_none_fst q q.length cur hq hnone
      have hq2 : q2.length ≠ 0 := by omega
      rw [hfst]
      unfold show_next_report
      rw [if_neg hq2, if_neg hq2]
      apply nextLoop_congr_start q2 q2.length hq2
      rw [hlen]
      rw [Int.emod_add_emod]
      have : (cur + (q.length : Int) + 1) = (cur + 1) + (q.length : Int) := by ring
      rw [this, int_add_self_emod]

/-- Witness for C7 at a concrete two-case queue (first completed, second
pending) from the initial cursor -1: a pending case is selected. -/
theorem c7_queue_next_pending_witness :
    ∃ i, (show_next_report
      [{ reporter_id := 1, reported_user_id := 2, message := ⟨5, 2, "u", "x"⟩,
         reason := "r1", details := "", score := 50, ml_prediction := none,
         timestamp := 0, status := CaseStatus.completed, mod_actions := [] },
       { reporter_id := 3, reported_user_id := 4, message := ⟨6, 4, "v", "y"⟩,
         reason := "r2", details := "", score := 30, ml_prediction := none,
         timestamp := 1, status := CaseStatus.pending, mod_actions := [] }] (-1)).2 = some i :=
  (c7_queue_next_pending _ (-1)).2.1
    ⟨{ reporter_id := 3, reported_user_id := 4, message := ⟨6, 4, "v", "y"⟩,
       reason := "r2", details := "", score := 30, ml_prediction := none,
       timestamp := 1, status := CaseStatus.pending, mod_actions := [] },
     by simp, rfl⟩

/-! ## Report dialog (report.py, Report) -/

def START_KEYWORD : String := "report"
def CANCEL_KEYWORD : String := "cancel"
def HELP_KEYWORD : String := "help"

/-- The `State` enumeration of report.py (MESSAGE_IDENTIFIED is declared but
never entered by `handle_message`). -/
inductive ReportState
  | REPORT_START
  | AWAITING_MESSAGE
  | MESSAGE_IDENTIFIED
  | REPORT_COMPLETE
  | NARROWING_DOWN_GROOMING
  | ADDITIONAL_INFO
  | POTENTIALLY_MORE_INFO
  | BLOCK
  | FINISH_REPORT
deriving DecidableEq, Repr

/-- The mutable fields of a `Report` session. -/
structure ReportSession where
  state : ReportState
  message : Option Msg
  concern_type : Option String
  additional_info : Option String
deriving DecidableEq, Repr

def initReport : ReportSession :=
  { state := ReportState.REPORT_START
    message := none
    concern_type := none
    additional_info := none }

/-- External Discord lookups used by the AWAITING_MESSAGE stage
(get_guild, get_channel, fetch_message). -/
structure DiscordEnv where
  hasGuild : Nat → Bool
  hasChannel : Nat → Nat → Bool
  fetchMessage : Nat → Nat → Nat → Option Msg

/-- The report_data dictionary handed to `client.add_report_to_queue`. -/
structure ReportData where
  reporter_id : Nat
  reported_user_id : Nat
  message : Msg
  reason : String
  details : String
  score : Int
deriving DecidableEq, Repr

/-- Anchored match of the regex /(\d+)/(\d+)/(\d+) at the head of the
character list: a slash, one or more digits, three times. Since digits never
match a slash, greedy maximal munch is exact here. -/
def linkAt : List Char → Option (Nat × Nat × Nat)
  | '/' :: r1 =>
    if r1.takeWhile Char.isDigit = [] then none
    else
      match r1.dropWhile Char.isDigit with
      | '/' :: r2 =>
        if r2.takeWhile Char.isDigit = [] then none
        else
          match r2.dropWhile Char.isDigit with
          | '/' :: r3 =>
            if r3.takeWhile Char.isDigit = [] then none
            else some (digitsVal (r1.takeWhile Char.isDigit),
                       digitsVal (r2.takeWhile Char.isDigit),
                       digitsVal (r3.takeWhile Char.isDigit))
          | _ => none
      | _ => none
  | _ => none

/-- re.search of the link pattern: leftmost anchored match. -/
def searchLink : List Char → Option (Nat × Nat × Nat)
  | [] => none
  | c :: cs =>
    match linkAt (c :: cs) with
    | some r => some r
    | none => searchLink cs

def concernTypes : List String :=
  ["Threatening to share nude images", "Nudity or adult material",
   "Sexual exploitation", "Prostitution", "Involves someone under 18", "None"]

def additionalInfoOptions : List String :=
  ["Impersonating someones identity", "Trying to isolate from others",
   "Asked for private conversations off app", "Pressured for sensitive photos",
   "Tried to meet up in person", "None"]

/-- Python `x if x else d` on an optional string field. -/
def pyTruthyOr (o : Option String) (d : String) : String :=
  match o with
  | some s => if s = "" then d else s
  | none => d

/-- The BLOCK stage: unless the answer lowercases to no, append the extra
information, then advance to FINISH_REPORT. -/
def blockUpdate (s : ReportSession) (m : Msg) : ReportSession :=
  if pyLower m.content.data ≠ "no".data then
    { s with state := ReportState.FINISH_REPORT
             additional_info := some (match s.additional_info with
               | some a => a ++ " | Extra info: " ++ m.content
               | none => "Extra info: " ++ m.content) }
  else { s with state := ReportState.FINISH_REPORT }

/-- The final-stage reply (block confirmation plus thanks). -/
def finishReply (m : Msg) : String :=
  if pyStrip (pyLower m.content.data) = "yes".data then
    "You have blocked this user. Thank you for your report."
  else "Thank you for your report."

/-- `Report.handle_message`: one step of the user-side reporting dialog.
Returns the updated session, the replies, and the report_data enqueued (only
ever at FINISH_REPORT with a stored message). Prompt texts are abbreviated. -/
def handle_message (env : DiscordEnv) (s : ReportSession) (m : Msg) :
    ReportSession × List String × Option ReportData :=
  if m.content = CANCEL_KEYWORD then
    ({ s with state := ReportState.REPORT_COMPLETE }, ["Report complete."], none)
  else if s.state = ReportState.REPORT_START then
    ({ s with state := ReportState.AWAITING_MESSAGE },
     ["Please copy paste the link to the message you want to report."], none)
  else if s.state = ReportState.AWAITING_MESSAGE then
    match searchLink m.content.data with
    | none => (s, ["I could not read that link. Please try again or say cancel to cancel."], none)
    | some (g, ch, mid) =>
      if env.hasGuild g = false then
        (s, ["I cannot accept reports of messages from guilds that I am not in."], none)
      else if env.hasChannel g ch = false then
        (s, ["It seems this channel was deleted or never existed."], none)
      else
        match env.fetchMessage g ch mid with
        | none => (s, ["It seems this message was deleted or never existed."], none)
        | some msg =>
          ({ s with state := ReportState.NARROWING_DOWN_GROOMING, message := some msg },
           ["What would you like to report? Options 1 to 7."], none)
  else if s.state = ReportState.NARROWING_DOWN_GROOMING then
    if m.content.data.contains '4' then
      ({ s with state := ReportState.ADDITIONAL_INFO },
       ["Which best describes this problem? Options 1 to 6."], none)
    else
      ({ s with state := ReportState.REPORT_COMPLETE },
       ["We have not yet built support for options other than option 4."], none)
  else if s.state = ReportState.ADDITIONAL_INFO then
    ({ s with state := ReportState.POTENTIALLY_MORE_INFO
              concern_type := some
                (if pyIsDigit m.content.data ∧ 1 ≤ digitsVal m.content.data ∧
                    digitsVal m.content.data ≤ 6 then
                  concernTypes.getD (digitsVal m.content.data - 1) ""
                else "Unspecified") },
     ["Tell us more about what happened. Options 1 to 6."], none)
  else if s.state = ReportState.POTENTIALLY_MORE_INFO then
    ({ s with state := ReportState.BLOCK
              additional_info := some
                (if pyIsDigit m.content.data ∧ 1 ≤ digitsVal m.content.data ∧
                    digitsVal m.content.data ≤ 6 then
                  additionalInfoOptions.getD (digitsVal m.content.data - 1) ""
                else m.content) },
     ["Enter any additional information you would like to provide. If you have nothing to add, say no."], none)
  else if s.state = ReportState.BLOCK then
    (blockUpdate s m, ["Would you like to block this user now? Enter yes or no."], none)
  else if s.state = ReportState.FINISH_REPORT then
    match s.message with
    | some msg =>
      ({ s with state := ReportState.REPORT_COMPLETE },
       [finishReply m],
       some { reporter_id := m.authorId
              reported_user_id := msg.authorId
              message := msg
              reason := "Child Safety Concern"
              details := "Specific concern: " ++ pyTruthyOr s.concern_type "Unknown" ++
                ". Additional info: " ++ pyTruthyOr s.additional_info "None"
              score := 30 })
    | none => ({ s with state := ReportState.REPORT_COMPLETE }, [finishReply m], none)
  else (s, [], none)

/-- `Report.report_complete`. -/
def report_complete (s : ReportSession) : Bool :=
  decide (s.state = ReportState.REPORT_COMPLETE)

/-- Feed a list of messages through the dialog, collecting every report_data
handed to the client. -/
def runDialog (env : DiscordEnv) : ReportSession → List Msg → ReportSession × List ReportData
  | s, [] => (s, [])
  | s, m :: ms =>
    ((runDialog env (handle_message env s m).1 ms).1,
      (handle_message env s m).2.2.toList ++ (runDialog env (handle_message env s m).1 ms).2)

/-- `ModBot.add_report_to_queue`: wrap the report_data in a pending
ModReport and append it. -/
def add_report_to_queue (mod_reports : List ModReport) (d : ReportData) (now : Nat) :
    List ModReport :=
  mod_reports ++ [{ reporter_id := d.reporter_id
                    reported_user_id := d.reported_user_id
                    message := d.message
                    reason := d.reason
                    details := d.details
                    score := d.score
                    ml_prediction := none
                    timestamp := now
                    status := CaseStatus.pending
                    mod_actions := [] }]

/-! ## Claim C8 -/

/-- C8: in any non-terminal state, and before the BlockPrompt stage has been
passed (state not yet FINISH_REPORT), the cancel keyword moves the session
to the terminal state in one step, report_complete becomes true, and no
case is enqueued. -/
theorem c8_cancel_terminates (env : DiscordEnv) (s : ReportSession) (m : Msg)
    (hc : m.content = CANCEL_KEYWORD)
    (hterm : s.state ≠ ReportState.REPORT_COMPLETE)
    (hblock : s.state ≠ ReportState.FINISH_REPORT) :
    (handle_message env s m).1.state = ReportState.REPORT_COMPLETE ∧
    report_complete (handle_message env s m).1 = true ∧
    (handle_message env s m).2.2 = none := by
  unfold handle_message
  rw [if_pos hc]
  exact ⟨rfl, rfl, rfl⟩

/-- Witness for C8: cancelling at the BLOCK stage of a concrete session. -/
theorem c8_cancel_terminates_witness :
    (handle_message ⟨fun _ => false, fun _ _ => false, fun _ _ _ => none⟩
      { state := ReportState.BLOCK, message := none, concern_type := none,
        additional_info := none } ⟨1, 9, "u", "cancel"⟩).1.state =
      ReportState.REPORT_COMPLETE ∧
    report_complete (handle_message ⟨fun _ => false, fun _ _ => false, fun _ _ _ => none⟩
      { state := ReportState.BLOCK, message := none, concern_type := none,
        additional_info := none } ⟨1, 9, "u", "cancel"⟩).1 = true ∧
    (handle_message ⟨fun _ => false, fun _ _ => false, fun _ _ _ => none⟩
      { state := ReportState.BLOCK, message := none, concern_type := none,
        additional_info := none } ⟨1, 9, "u", "cancel"⟩).2.2 = none :=
  c8_cancel_terminates ⟨fun _ => false, fun _ _ => false, fun _ _ _ => none⟩
    { state := ReportState.BLOCK, message := none, concern_type := none,
      additional_info := none } ⟨1, 9, "u", "cancel"⟩ rfl (by decide) (by decide)

/-! ## Claim C1 -/

/-- Environment resolving exactly the link guild 123, channel 456,
message 789, whose author is user 42. -/
def envC1 : DiscordEnv :=
  { hasGuild := fun g => decide (g = 123)
    hasChannel := fun g c => decide (g = 123 ∧ c = 456)
    fetchMessage := fun g c mid =>
      if g = 123 ∧ c = 456 ∧ mid = 789 then
        some ⟨789, 42, "suspect", "reported message text"⟩
      else none }

/-- The literal input sequence of the scenario, with the category choice as
a parameter (the claim says 3; the code requires 4). -/
def inputsC1 (category : String) : List Msg :=
  [⟨1000, 77, "reporter", "report"⟩,
   ⟨1001, 77, "reporter", "https://discord.com/channels/123/456/789"⟩,
   ⟨1002, 77, "reporter", category⟩,
   ⟨1003, 77, "reporter", "1"⟩,
   ⟨1004, 77, "reporter", "1"⟩,
   ⟨1005, 77, "reporter", "no"⟩,
   ⟨1006, 77, "reporter", "yes"⟩]

/-- The moderation queue after running the dialog and enqueuing everything
the dialog handed over. -/
def queueAfterC1 (category : String) : List ModReport :=
  (runDialog envC1 initReport (inputsC1 category)).2.foldl
    (fun q d => add_report_to_queue q d 0) []

/-- C1 counterexample: with the literal third input 3 the category menu
check ("4" in content) fails, the dialog terminates early, and no case at
all is enqueued, refuting the claim that exactly one case results. -/
theorem c1_counterexample_choice3 :
    (runDialog envC1 initReport (inputsC1 "3")).2 = [] ∧
    queueAfterC1 "3" = [] := by
  constructor
  · decide
  · decide

/-- C1 amended: with the category input 4 (the only supported option in the
code) the same sequence enqueues exactly one case, with score 30, status
pending, and reason Child Safety Concern. -/
theorem c1_amended_choice4 :
    (queueAfterC1 "4").length = 1 ∧
    ∀ r ∈ queueAfterC1 "4",
      r.score = 30 ∧ r.status = CaseStatus.pending ∧
      r.reason = "Child Safety Concern" := by
  constructor
  · decide
  · decide

/-- Witness for C6 at a concrete store and user. -/
theorem c6_consistent_reason_unreachable_witness :
    (should_escalate (emptyRiskStore 0 1) 5).2 ≠ EscReason.consistentHighRisk 1 :=
  c6_consistent_reason_unreachable (emptyRiskStore 0 1) 5 1
